import Mathlib

/-!
Verification of GithubPRCommentator (src/main.rs, src/github.rs).

The program posts or updates a status comment on a GitHub pull request.
We shallowly embed the pure cores of its operations:

* the overwrite-mode enum and its CLI derivation (`main.rs`, `parse_cli`),
* the metadata codec `HtmlCommentMetadataHandler` (module
  `github::metadata` is declared and called from `main.rs` but its file is
  not part of the sources at hand, so encode/decode are modelled from the
  specification, §4.1),
* the overwrite resolver embedded in `main` (lines 310-343 of `main.rs`),
* the pure cores of the API client `github.rs`: `mask_token`, the `Debug`
  rendering, `find_pr_for_branch`, the URL build in `request`, and the
  status handling in `comment`.

Strings are modelled as Lean `String` (a list of characters); comment ids,
PR numbers and HTTP status codes as `Nat`.
-/

/-- A PR/issue comment as returned by the listing endpoint: `{id, body}`. -/
structure Comment where
  id : Nat
  body : String
deriving DecidableEq

/-- The `CommentOverwriteMode` enum of `main.rs` (lines 47-55). -/
inductive CommentOverwriteMode where
  | Never
  | Always
  | UsingIdentifier
deriving DecidableEq

/-- The `impl Default for CommentOverwriteMode` of `main.rs` (lines 57-61). -/
def CommentOverwriteMode.default : CommentOverwriteMode :=
  CommentOverwriteMode.Always

/-- The derived `FromStr` (strum `EnumString`) for `CommentOverwriteMode`:
each variant parses from its own name, anything else is rejected. -/
def CommentOverwriteMode.fromStr : String → Option CommentOverwriteMode
  | "Never" => some .Never
  | "Always" => some .Always
  | "UsingIdentifier" => some .UsingIdentifier
  | _ => none

/-- The overwrite-mode computation of `parse_cli` (`main.rs` lines 254-269):
if the `--overwrite-id` argument is present the mode is `UsingIdentifier`;
otherwise the `--overwrite` argument is parsed (an unparsable value exits
with an error, modelled as `Except.error`), and when absent the `Default`
instance supplies the mode. -/
def compute_overwrite_mode (overwrite_mode_arg : Option String)
    (overwrite_id_arg : Option String) : Except String CommentOverwriteMode :=
  if overwrite_id_arg.isSome then
    .ok .UsingIdentifier
  else
    match overwrite_mode_arg with
    | some m =>
      match CommentOverwriteMode.fromStr m with
      | some mode => .ok mode
      | none => .error ("Invalid overwrite Mode: " ++ m)
    | none => .ok CommentOverwriteMode.default

/-- Does `tag` occur at the head of the character list? -/
def startsWithChars : List Char → List Char → Bool
  | [], _ => true
  | _ :: _, [] => false
  | t :: ts, c :: cs => t == c && startsWithChars ts cs

/-- The suffix following the first occurrence of `tag`, or `none` when
`tag` does not occur. -/
def afterFirstChars (tag : List Char) : List Char → Option (List Char)
  | [] => none
  | c :: rest =>
    if startsWithChars tag (c :: rest) then some ((c :: rest).drop tag.length)
    else afterFirstChars tag rest

/-- The segment preceding the first occurrence of `tag`, or `none` when
`tag` does not occur. -/
def beforeFirstChars (tag : List Char) : List Char → Option (List Char)
  | [] => none
  | c :: rest =>
    if startsWithChars tag (c :: rest) then some []
    else (beforeFirstChars tag rest).map (c :: ·)

/-- Modelled from the spec: the serialized form of the optional identifier
inside the marker payload (the decode call site in `main.rs` deserializes
the payload as an `Option<String>`): an absent identifier serializes as
`null`, a present one as the quoted string. -/
def payloadString : Option String → String
  | none => "null"
  | some s => "\"" ++ s ++ "\""

/-- Modelled from the spec: parsing of a marker payload back into an
optional identifier; any other shape is malformed (§4.1: a present but
malformed marker is a decode error, not an absent marker). -/
def parsePayload (payload : List Char) : Except String (Option String) :=
  if payload = "null".toList then .ok none
  else
    match payload with
    | '"' :: rest =>
      if rest.getLast? = some '"' then .ok (some (String.mk rest.dropLast))
      else .error ("invalid metadata payload")
    | _ => .error ("invalid metadata payload")

/-- The `HtmlCommentMetadataHandler` of `github::metadata`, carrying the
fixed marker tag (`main.rs` lines 307-309 instantiate it with
`metadata_id = "pr_commentator : "`). -/
structure HtmlCommentMetadataHandler where
  metadata_id : String

/-- Modelled from the spec: `get_metadata_from_comment` (module
`github::metadata`, not among the sources at hand; §4.1): scan the body for
the fixed tag wrapped in an HTML comment opener; `none` when the tag is
absent (foreign comment), `some (.error ..)` when the tag is present but
the marker is truncated or its payload malformed, `some (.ok ident)` when
the payload parses. -/
def HtmlCommentMetadataHandler.get_metadata_from_comment
    (h : HtmlCommentMetadataHandler) (body : String) :
    Option (Except String (Option String)) :=
  match afterFirstChars ("<!--".toList ++ h.metadata_id.toList) body.toList with
  | none => none
  | some rest =>
    match beforeFirstChars "-->".toList rest with
    | none => some (.error ("unterminated metadata marker"))
    | some payload => some (parsePayload payload)

/-- Modelled from the spec: `add_metadata_to_comment` (module
`github::metadata`, not among the sources at hand; §4.1): append a
non-rendering HTML comment holding the fixed tag and the serialized
optional identifier to the visible body. Pure and total. -/
def HtmlCommentMetadataHandler.add_metadata_to_comment
    (h : HtmlCommentMetadataHandler) (comment : String)
    (identifier : Option String) : String :=
  comment ++ "\n<!--" ++ h.metadata_id ++ payloadString identifier ++ "-->"

/-- Modelled from the spec: the call site in `main.rs` (lines 345-347)
receives the encode result as a `Result`; §4.1 and §7 define encoding to
be infallible, so the result is always the `Ok` of the encoded body. -/
def HtmlCommentMetadataHandler.add_metadata_to_comment_checked
    (h : HtmlCommentMetadataHandler) (comment : String)
    (identifier : Option String) : Except String String :=
  .ok (h.add_metadata_to_comment comment identifier)

/-- The handler instantiated by `main` (`main.rs` lines 307-309). -/
def metadata_handler : HtmlCommentMetadataHandler :=
  ⟨"pr_commentator : "⟩

/-- The filter closure of the overwrite scan (`main.rs` lines 323-335): a
comment is kept when its marker decodes and either the mode is `Always` or
the configured identifier equals the decoded one; comments without a
marker, or whose marker fails to decode (logged), are dropped. -/
def shouldOverwrite (mode : CommentOverwriteMode)
    (overwrite_identifier : Option String) (c : Comment) : Bool :=
  match metadata_handler.get_metadata_from_comment c.body with
  | none => false
  | some (.ok identifier) =>
    mode == CommentOverwriteMode.Always || overwrite_identifier == identifier
  | some (.error _) => false

/-- The overwrite resolver of `main` (`main.rs` lines 310-343), given the
listed comments: `Never` yields no target without scanning; otherwise the
comments are filtered by `shouldOverwrite`, mapped to their ids, and the
last one (`Iterator::last`) is the target. -/
def resolveOverwrite (mode : CommentOverwriteMode)
    (overwrite_identifier : Option String) (comments : List Comment) :
    Option Nat :=
  if mode = CommentOverwriteMode.Never then none
  else ((comments.filter (shouldOverwrite mode overwrite_identifier)).map
    Comment.id).getLast?

/-- Effect record for the instrumented resolver: whether the comment
listing request was issued, and how many decode calls were made. -/
structure ResolverTrace where
  listing_performed : Bool
  decode_invocations : Nat
deriving DecidableEq

/-- The resolver of `main.rs` lines 310-343 with its effects made explicit:
in the `Never` branch neither `list_comments` nor any decode call happens;
in the other branch the listing is requested and the filter invokes
`get_metadata_from_comment` once per listed comment. -/
def resolveOverwriteTraced (mode : CommentOverwriteMode)
    (overwrite_identifier : Option String) (comments : List Comment) :
    Option Nat × ResolverTrace :=
  if mode = CommentOverwriteMode.Never then (none, ⟨false, 0⟩)
  else
    (((comments.filter (shouldOverwrite mode overwrite_identifier)).map
      Comment.id).getLast?, ⟨true, comments.length⟩)

/-- The `head` object of a PR summary (`github_types::ShortCommit`); only
its ref field is consulted. -/
structure ShortCommit where
  commit_ref : String
deriving DecidableEq

/-- `PullRequestSummary` of `github.rs` (lines 14-18): `{number, head}`. -/
structure PullRequestSummary where
  number : Nat
  head : ShortCommit
deriving DecidableEq

/-- The pure core of `find_pr_for_branch` (`github.rs` lines 65-91), given
the already-parsed PR list (the service returns it sorted by most recent
update, descending): the first entry whose head ref equals the branch name
wins; otherwise the not-found error. -/
def find_pr_for_branch (prs : List PullRequestSummary)
    (branch_name : String) : Except String Nat :=
  match prs.find? (fun pr => pr.head.commit_ref == branch_name) with
  | some pr => .ok pr.number
  | none => .error ("Cant find dude")

/-- Model of `url::Url` for the one behavior `request` depends on: a URL
value either can or cannot serve as a base for relative references
(`mailto:` and `data:` URLs, for example, cannot). -/
structure Url where
  cannot_be_a_base : Bool
  text : String
deriving DecidableEq

/-- Model of `url::Url::join`: joining a relative reference onto a
cannot-be-a-base URL fails (`ParseError::RelativeUrlWithCannotBeABaseBase`);
otherwise it yields the resolved URL. -/
def Url.join (base : Url) (input : String) : Option Url :=
  if base.cannot_be_a_base then none else some ⟨false, base.text ++ input⟩

/-- `GithubAPI` of `github.rs` (lines 20-23): base URL plus bearer token. -/
structure GithubAPI where
  base_url : Url
  token : String
deriving DecidableEq

/-- The URL-building step of `GithubAPI::request` (`github.rs` line 57):
`self.base_url.join(url)`, whose result the source unwraps — a `none`
here is the panic of that `.unwrap()`, not an error return. -/
def GithubAPI.request_full_url (api : GithubAPI) (url : String) :
    Option Url :=
  api.base_url.join url

/-- `String::replace_range(start..stop, repl)`: the characters of the range
are replaced by `repl`. -/
def replace_range (s : String) (start stop : Nat) (repl : String) : String :=
  ⟨s.data.take start ++ repl.data ++ s.data.drop stop⟩

/-- `mask_token` of `github.rs` (lines 25-38): a token longer than 8
keeps its first two and last two characters around the fixed mask; a
shorter one is replaced by the mask entirely. -/
def mask_token (token : String) : String :=
  if token.length > 8 then
    replace_range token 2 (token.length - 2) ("************")
  else
    replace_range token 0 token.length ("************")

/-- A single quote character, as a string. -/
def squote : String := ⟨[Char.ofNat 39]⟩

/-- The `Debug` rendering of `GithubAPI` (`github.rs` lines 40-49): the
base URL verbatim, the token only through `mask_token` (applied to a clone
of the token). -/
def GithubAPI.debug_fmt (api : GithubAPI) : String :=
  "GithubAPI \x7b base_url: " ++ squote ++ api.base_url.text ++ squote ++
    ",  token: " ++ squote ++ mask_token api.token ++ squote ++ " \x7d"

/-- An HTTP response as `comment` inspects it: a status code, and the
debug rendering used in the failure message. -/
structure HttpResponse where
  status : Nat
  debug_repr : String
deriving DecidableEq

/-- The response handling of `GithubAPI::comment` (`github.rs` lines
93-121) after `send()`: a transport error propagates; a response with
status 201 is success, anything else becomes the error string carrying the
response's debug form. -/
def comment_op (send_result : Except String HttpResponse) :
    Except String Unit :=
  match send_result with
  | .error e => .error e
  | .ok res =>
    if res.status = 201 then .ok ()
    else .error ("Arggggg " ++ res.debug_repr)

/-- A comment whose body carries no marker, or whose marker fails to
decode, is rejected by the overwrite filter. -/
theorem shouldOverwrite_false_of_bad (mode : CommentOverwriteMode)
    (oid : Option String) (c : Comment)
    (hbad : metadata_handler.get_metadata_from_comment c.body = none ∨
      ∃ e, metadata_handler.get_metadata_from_comment c.body =
        some (Except.error e)) :
    shouldOverwrite mode oid c = false := by
  unfold shouldOverwrite
  rcases hbad with h | ⟨e, h⟩ <;> rw [h]

/-- C3: with policy Never the resolver selects no comment for any comment
list, issues no listing request and performs no marker decoding. -/
theorem never_mode_no_scan (oid : Option String) (comments : List Comment) :
    resolveOverwrite CommentOverwriteMode.Never oid comments = none ∧
    resolveOverwriteTraced CommentOverwriteMode.Never oid comments =
      (none, ⟨false, 0⟩) :=
  ⟨rfl, rfl⟩

/-- C6: encoding a metadata marker into a comment body succeeds for every
body and every optional identifier — the encode step never fails. -/
theorem add_metadata_never_fails (comment : String)
    (identifier : Option String) :
    ∃ commented,
      metadata_handler.add_metadata_to_comment_checked comment identifier =
        Except.ok commented :=
  ⟨_, rfl⟩

/-- C7: the URL-building step of `request` is not surfaced as a `Result`:
with a cannot-be-a-base base URL (accepted by the CLI, e.g. a `mailto:`
URL) the join fails, and the source unwraps that failure — a panic. -/
theorem request_url_join_fails_for_cannot_be_a_base :
    GithubAPI.request_full_url ⟨⟨true, "mailto:x@y"⟩, "secret"⟩
      ("repos/o/r/pulls") = none :=
  rfl

/-- C10: with neither an overwrite mode nor an overwrite identifier
supplied, `parse_cli` falls back to the `Default` instance, which is
`Always`. -/
theorem default_mode_is_always :
    compute_overwrite_mode none none = .ok CommentOverwriteMode.Always ∧
    CommentOverwriteMode.default = CommentOverwriteMode.Always :=
  ⟨rfl, rfl⟩

/-- C1: for a policy other than Never, the resolver returns the id of the
last comment passing the marker filter in listing order, and none when no
comment passes the filter, including for the empty list. -/
theorem resolver_returns_last_match (mode : CommentOverwriteMode)
    (oid : Option String) (hmode : mode ≠ CommentOverwriteMode.Never) :
    (∀ (l1 l2 : List Comment) (c : Comment),
        shouldOverwrite mode oid c = true →
        (∀ d ∈ l2, shouldOverwrite mode oid d = false) →
        resolveOverwrite mode oid (l1 ++ c :: l2) = some c.id) ∧
    (∀ comments : List Comment,
        (∀ d ∈ comments, shouldOverwrite mode oid d = false) →
        resolveOverwrite mode oid comments = none) := by
  constructor
  · intro l1 l2 c hc hl2
    unfold resolveOverwrite
    rw [if_neg hmode, List.filter_append, List.filter_cons_of_pos hc]
    have h2 : l2.filter (shouldOverwrite mode oid) = [] :=
      List.filter_eq_nil_iff.mpr (fun d hd => by simp [hl2 d hd])
    rw [h2, List.map_append]
    simp
  · intro comments hall
    unfold resolveOverwrite
    rw [if_neg hmode]
    have h0 : comments.filter (shouldOverwrite mode oid) = [] :=
      List.filter_eq_nil_iff.mpr (fun d hd => by simp [hall d hd])
    rw [h0]
    rfl

theorem resolver_returns_last_match_witness :
    resolveOverwrite CommentOverwriteMode.Always none
      [⟨1, "just text"⟩, ⟨2, "a\n<!--pr_commentator : \"A\"-->"⟩,
        ⟨3, "b\n<!--pr_commentator : \"B\"-->"⟩] = some 3 :=
  (resolver_returns_last_match CommentOverwriteMode.Always none (by decide)).1
    [⟨1, "just text"⟩, ⟨2, "a\n<!--pr_commentator : \"A\"-->"⟩] []
    ⟨3, "b\n<!--pr_commentator : \"B\"-->"⟩ (by decide) (by simp)

/-- C2: under the UsingIdentifier policy, a comment whose marker decodes
(a machine-managed comment) is selected exactly when the configured
identifier equals the decoded one, absent-equals-absent included. -/
theorem usingIdentifier_selects_iff (oid ident : Option String) (c : Comment)
    (hdec : metadata_handler.get_metadata_from_comment c.body =
      some (Except.ok ident)) :
    shouldOverwrite CommentOverwriteMode.UsingIdentifier oid c = true ↔
      oid = ident := by
  unfold shouldOverwrite
  rw [hdec]
  simp

theorem usingIdentifier_selects_iff_witness :
    (shouldOverwrite CommentOverwriteMode.UsingIdentifier (some ("X"))
        ⟨7, "hi\n<!--pr_commentator : \"X\"-->"⟩ = true) ↔
      some ("X") = some ("X") :=
  usingIdentifier_selects_iff (some ("X")) (some ("X"))
    ⟨7, "hi\n<!--pr_commentator : \"X\"-->"⟩ rfl

/-- C4: a comment with no marker or an undecodable marker is dropped from
the candidates and has no effect on the resolution of the remaining
comments; the resolver stays total (it never fails the run). -/
theorem bad_marker_comment_discarded (mode : CommentOverwriteMode)
    (oid : Option String) (l1 l2 : List Comment) (c : Comment)
    (hbad : metadata_handler.get_metadata_from_comment c.body = none ∨
      ∃ e, metadata_handler.get_metadata_from_comment c.body =
        some (Except.error e)) :
    resolveOverwrite mode oid (l1 ++ c :: l2) =
      resolveOverwrite mode oid (l1 ++ l2) := by
  have hc : shouldOverwrite mode oid c = false :=
    shouldOverwrite_false_of_bad mode oid c hbad
  unfold resolveOverwrite
  by_cases hmode : mode = CommentOverwriteMode.Never
  · rw [if_pos hmode, if_pos hmode]
  · rw [if_neg hmode, if_neg hmode, List.filter_append, List.filter_append,
      List.filter_cons_of_neg (by simp [hc])]

theorem bad_marker_comment_discarded_witness :
    resolveOverwrite CommentOverwriteMode.Always none
      [⟨1, "a\n<!--pr_commentator : \"A\"-->"⟩,
        ⟨2, "bad <!--pr_commentator : oops-->"⟩,
        ⟨3, "b\n<!--pr_commentator : \"B\"-->"⟩] =
    resolveOverwrite CommentOverwriteMode.Always none
      [⟨1, "a\n<!--pr_commentator : \"A\"-->"⟩,
        ⟨3, "b\n<!--pr_commentator : \"B\"-->"⟩] :=
  bad_marker_comment_discarded CommentOverwriteMode.Always none
    [⟨1, "a\n<!--pr_commentator : \"A\"-->"⟩]
    [⟨3, "b\n<!--pr_commentator : \"B\"-->"⟩]
    ⟨2, "bad <!--pr_commentator : oops-->"⟩
    (Or.inr ⟨"invalid metadata payload", rfl⟩)

/-- C5: PR resolution returns the number of the first listed entry whose
head branch equals the ref name, and the not-found error when no entry
matches. -/
theorem find_pr_first_match (branch_name : String) :
    (∀ (l1 l2 : List PullRequestSummary) (pr : PullRequestSummary),
        pr.head.commit_ref = branch_name →
        (∀ q ∈ l1, q.head.commit_ref ≠ branch_name) →
        find_pr_for_branch (l1 ++ pr :: l2) branch_name = .ok pr.number) ∧
    (∀ prs : List PullRequestSummary,
        (∀ q ∈ prs, q.head.commit_ref ≠ branch_name) →
        find_pr_for_branch prs branch_name = .error ("Cant find dude")) := by
  constructor
  · intro l1 l2 pr hpr hl1
    unfold find_pr_for_branch
    have hfind : (l1 ++ pr :: l2).find?
        (fun q => q.head.commit_ref == branch_name) = some pr := by
      induction l1 with
      | nil =>
        exact List.find?_cons_of_pos l2 (by simp [hpr])
      | cons a as ih =>
        have ha : ¬ ((fun q => q.head.commit_ref == branch_name) a = true) := by
          simp [hl1 a (List.mem_cons_self a as)]
        rw [List.cons_append, List.find?_cons_of_neg (as ++ pr :: l2) ha]
        exact ih (fun q hq => hl1 q (List.mem_cons_of_mem a hq))
    rw [hfind]
  · intro prs hall
    unfold find_pr_for_branch
    have hfind : prs.find? (fun q => q.head.commit_ref == branch_name) = none :=
      List.find?_eq_none.mpr (fun q hq => by simp [hall q hq])
    rw [hfind]

theorem find_pr_first_match_witness :
    find_pr_for_branch [⟨10, ⟨"other"⟩⟩, ⟨42, ⟨"feat"⟩⟩, ⟨7, ⟨"feat"⟩⟩]
      ("feat") = .ok 42 :=
  (find_pr_first_match ("feat")).1 [⟨10, ⟨"other"⟩⟩] [⟨7, ⟨"feat"⟩⟩]
    ⟨42, ⟨"feat"⟩⟩ rfl (by decide)

/-- C9: creating a comment succeeds exactly on HTTP status 201; any other
status yields the error carrying the response's debug form, never
success. -/
theorem comment_requires_created_status (res : HttpResponse) :
    (comment_op (.ok res) = .ok () ↔ res.status = 201) ∧
    (res.status ≠ 201 →
      comment_op (.ok res) = .error ("Arggggg " ++ res.debug_repr)) := by
  unfold comment_op
  by_cases h : res.status = 201
  · simp [h]
  · simp [h]

theorem comment_requires_created_status_witness :
    comment_op (.ok ⟨404, "resp"⟩) = .error ("Arggggg " ++ "resp") :=
  (comment_requires_created_status ⟨404, "resp"⟩).2 (by decide)

/-- C8: the Debug rendering of the API client exposes the token only
through the mask: a token longer than 8 keeps exactly its first two and
last two characters around the fixed mask, a token of length at most 8 is
replaced by the mask entirely. -/
theorem mask_token_masks (token : String) :
    (token.length > 8 →
      (mask_token token).data =
        token.data.take 2 ++ ("************" : String).data ++
          token.data.drop (token.length - 2)) ∧
    (token.length ≤ 8 → mask_token token = "************") ∧
    (∀ api : GithubAPI,
      api.debug_fmt =
        "GithubAPI \x7b base_url: " ++ squote ++ api.base_url.text ++ squote ++
          ",  token: " ++ squote ++ mask_token api.token ++ squote ++
          " \x7d") := by
  refine ⟨?_, ?_, fun api => rfl⟩
  · intro h
    unfold mask_token replace_range
    rw [if_pos h]
  · intro h
    have hn : ¬ token.length > 8 := Nat.not_lt.mpr h
    unfold mask_token replace_range
    rw [if_neg hn]
    show String.mk (token.data.take 0 ++ ("************" : String).data ++
      token.data.drop token.data.length) = "************"
    rw [List.take_zero, List.drop_length]
    rfl

theorem mask_token_masks_witness :
    (mask_token ("abcdefghij")).data =
      ("abcdefghij" : String).data.take 2 ++ ("************" : String).data ++
        ("abcdefghij" : String).data.drop 8 ∧
    mask_token ("short") = "************" :=
  ⟨(mask_token_masks ("abcdefghij")).1 (by decide),
    (mask_token_masks ("short")).2.1 (by decide)⟩
